import Mathlib

/-!
Shallow embedding of the cryptoflare password-hashing worker (src/lib.rs).

The repository code is a thin HTTP service over two external hashing
primitives (the argon2 and bcrypt crates) and the workers runtime.  The
service code itself — request types, the four handlers, the error taxonomy,
`Error::to_response`, and the router in `main` — is embedded directly from
the source.  The external primitives and the runtime's `Response`
constructors are not part of the repository; they are modelled from the
specification's description of their contracts, each such definition carrying
a doc comment that says so.

Randomness (the fresh salt drawn from `OsRng` on every hash call) is made
explicit: each hashing function takes the drawn salt as an argument.
Encoded digest strings are modelled by the inductive `HashStr`, whose
constructors carry exactly the fields the real encodings embed injectively
(algorithm tag, version, parameters, salt, digest for the PHC format;
version, cost, salt, digest for the bcrypt MCF format).
-/

namespace Cryptoflare

/-! ## Request and response value objects (src/lib.rs lines 35-58, 126-135) -/

/-- `HashRequest<T>`: a decoded hash request body: required password, optional
algorithm-specific options. -/
structure HashRequest (T : Type) where
  password : String
  options : Option T
deriving DecidableEq

/-- `Argon2HashOptions`: the three required Argon2 cost parameters. -/
structure Argon2HashOptions where
  time_cost : Nat
  memory_cost : Nat
  parallelism : Nat
deriving DecidableEq

/-- `BcryptHashOptions`: the single bcrypt work factor. -/
structure BcryptHashOptions where
  work_factor : Nat
deriving DecidableEq

/-- Modelled from the spec: an encoded digest string.  The real service
returns strings; their two formats (the PHC self-describing format produced
by the argon2 crate, and the modular-crypt format produced by the bcrypt
crate) embed their fields injectively, so the string is modelled by the
fields it embeds. -/
inductive HashStr where
  | phc (alg : String) (version m_cost t_cost p_cost salt digest : Nat)
  | mcf (version : String) (cost salt digest : Nat)
deriving DecidableEq

/-- `VerifyRequest`: a decoded verify request body. -/
structure VerifyRequest where
  password : String
  hash : HashStr
deriving DecidableEq

/-- The JSON-serialized success body: `HashResponse { hash }` or
`VerifyResponse { result }` (serialization of these records never fails,
so the model keeps the record). -/
inductive Resp where
  | hash (h : HashStr)
  | verify (result : Bool)
deriving DecidableEq

/-! ## Error taxonomy (src/lib.rs lines 177-185) -/

/-- The seven error kinds of `enum Error`. -/
inductive Error where
  | InvalidRoute
  | BadRequest
  | InternalServerError
  | InvalidHashOptions
  | HashFailed
  | InvalidPasswordHash
  | VerifyFailed
deriving DecidableEq

/-! ## The Argon2 primitive, modelled from the spec -/

/-- Modelled from the spec: the primitive's accepted parameter ranges for
`Params::new` — time cost and parallelism at least one, parallelism within
the encodable range, and memory at least the minimum required for the
requested parallelism (spec section 4.1). -/
def argon2ParamsValid (m t p : Nat) : Prop :=
  1 ≤ t ∧ 1 ≤ p ∧ p ≤ 16777215 ∧ 8 * p ≤ m

instance (m t p : Nat) : Decidable (argon2ParamsValid m t p) := by
  unfold argon2ParamsValid
  infer_instance

/-- A validated Argon2 parameter tuple (the argon2 crate's `Params`). -/
structure Argon2Params where
  m_cost : Nat
  t_cost : Nat
  p_cost : Nat
deriving DecidableEq

/-- Modelled from the spec: `Params::new(m_cost, t_cost, p_cost, None)` —
validates the tuple against the primitive's accepted ranges, rejecting
invalid combinations. -/
def Params.new (m t p : Nat) : Except Unit Argon2Params :=
  if argon2ParamsValid m t p then .ok ⟨m, t, p⟩ else .error ()

/-- Modelled from the spec: the algorithm's published default parameters
(the argon2 crate's defaults: 19456 KiB memory, 2 iterations, 1 lane). -/
def argon2DefaultParams : Argon2Params := ⟨19456, 2, 1⟩

/-- Modelled from the spec: the default Argon2 version tag (19, i.e. 0x13). -/
def argon2DefaultVersion : Nat := 19

/-- Modelled from the spec: the Argon2id key-derivation black box — a pure
deterministic function of password, version, parameters and salt.  Its
internals are out of scope; only determinism matters to the service. -/
def argon2Kdf (password : String) (version m t p salt : Nat) : Nat :=
  password.data.foldl (fun a c => a * 131 + c.toNat + 1)
    ((((version * 31 + m) * 31 + t) * 31 + p) * 31 + salt)

/-- Modelled from the spec: `Argon2::hash_password` — derives the digest
over the password with the given parameters and the fresh salt, and encodes
everything into one self-describing PHC string (algorithm tag fixed to
Argon2id, default version). -/
def hash_password (params : Argon2Params) (password : String) (salt : Nat) : HashStr :=
  .phc ("argon2id") argon2DefaultVersion params.m_cost params.t_cost params.p_cost salt
    (argon2Kdf password argon2DefaultVersion params.m_cost params.t_cost params.p_cost salt)

/-- A parsed PHC hash (the password-hash crate's `PasswordHash`). -/
structure PHCHash where
  alg : String
  version : Nat
  m_cost : Nat
  t_cost : Nat
  p_cost : Nat
  salt : Nat
  digest : Nat
deriving DecidableEq

/-- Modelled from the spec: `PasswordHash::new` — parses a digest string as
a self-describing PHC string.  A bcrypt modular-crypt string is not in PHC
format (its fields are not PHC fields and its base64 alphabet differs), so
parsing it fails. -/
def PasswordHash.new (h : HashStr) : Except Unit PHCHash :=
  match h with
  | .phc alg version m t p salt digest => .ok ⟨alg, version, m, t, p, salt, digest⟩
  | .mcf _ _ _ _ => .error ()

/-- The password-hash crate's verification errors as the service observes
them: a digest mismatch (`Error::Password`) versus anything else. -/
inductive A2VerifyErr where
  | Password
  | Algorithm
deriving DecidableEq

/-- Modelled from the spec: `Argon2::verify_password` — checks the parsed
hash's algorithm tag is a supported Argon2 variant, recomputes the digest
over the password with the embedded version, parameters and salt, and
compares against the embedded digest; a mismatch is `Error::Password`. -/
def verify_password (password : String) (h : PHCHash) : Except A2VerifyErr Unit :=
  if h.alg = "argon2id" ∨ h.alg = "argon2i" ∨ h.alg = "argon2d" then
    if argon2Kdf password h.version h.m_cost h.t_cost h.p_cost h.salt = h.digest then
      .ok ()
    else
      .error .Password
  else
    .error .Algorithm

/-! ## The bcrypt primitive, modelled from the spec -/

/-- Modelled from the spec: `bcrypt::DEFAULT_COST` (12). -/
def bcryptDefaultCost : Nat := 12

/-- Modelled from the spec: the bcrypt primitive's accepted cost range
(4 to 31); costs outside it are rejected by the primitive itself. -/
def bcryptCostInRange (cost : Nat) : Prop := 4 ≤ cost ∧ cost ≤ 31

instance (cost : Nat) : Decidable (bcryptCostInRange cost) := by
  unfold bcryptCostInRange
  infer_instance

/-- Modelled from the spec: the bcrypt key-derivation black box — a pure
deterministic function of password, cost and salt. -/
def bcryptKdf (password : String) (cost salt : Nat) : Nat :=
  password.data.foldl (fun a c => a * 257 + c.toNat + 1) (cost * 8191 + salt)

/-- Modelled from the spec: `bcrypt::hash` — fails if the cost is outside
the primitive's accepted range, otherwise encodes version, cost, salt and
digest into one modular-crypt string. -/
def bcryptHash (password : String) (cost salt : Nat) : Except Unit HashStr :=
  if bcryptCostInRange cost then
    .ok (.mcf ("2b") cost salt (bcryptKdf password cost salt))
  else
    .error ()

/-- Modelled from the spec: `bcrypt::verify` — parses the digest string as
a modular-crypt bcrypt string (any malformed string, including a PHC string,
is a parse failure), recomputes and compares; the comparison outcome is the
returned boolean. -/
def bcryptVerify (password : String) (h : HashStr) : Except Unit Bool :=
  match h with
  | .mcf version cost salt digest =>
    if (version = "2a" ∨ version = "2b" ∨ version = "2x" ∨ version = "2y") ∧
        bcryptCostInRange cost then
      .ok (bcryptKdf password cost salt == digest)
    else
      .error ()
  | .phc _ _ _ _ _ _ _ => .error ()

/-! ## The service's own operations (src/lib.rs lines 61-174) -/

/-- `argon2id_hash` (src/lib.rs lines 75-101): with options present, builds
`Params::new(memory_cost, time_cost, parallelism)`, mapping rejection to
`InvalidHashOptions`; with options absent, uses the defaults; then hashes
the password with the fresh salt.  The salt drawn from `OsRng` is the
explicit `salt` argument. -/
def argon2id_hash (password : String) (options : Option Argon2HashOptions)
    (salt : Nat) : Except Error HashStr :=
  let argon2 : Except Error Argon2Params :=
    match options with
    | some opts =>
      match Params.new opts.memory_cost opts.time_cost opts.parallelism with
      | .ok params => .ok params
      | .error _ => .error .InvalidHashOptions
    | none => .ok argon2DefaultParams
  match argon2 with
  | .error e => .error e
  | .ok params => .ok (hash_password params password salt)

/-- `argon2id_hash_handler` (src/lib.rs lines 61-73): body decode failure is
`BadRequest`; then delegates to `argon2id_hash` and serializes the response
(serialization of a `HashResponse` record never fails in the model). -/
def argon2id_hash_handler (body : Option (HashRequest Argon2HashOptions))
    (salt : Nat) : Except Error Resp :=
  match body with
  | none => .error .BadRequest
  | some hash_req =>
    match argon2id_hash hash_req.password hash_req.options salt with
    | .error e => .error e
    | .ok h => .ok (.hash h)

/-- `bcrypt_hash_handler` (src/lib.rs lines 103-122): body decode failure is
`BadRequest`; calls `bcrypt::hash` with the given work factor or the default
cost; any primitive failure is `HashFailed`. -/
def bcrypt_hash_handler (body : Option (HashRequest BcryptHashOptions))
    (salt : Nat) : Except Error Resp :=
  match body with
  | none => .error .BadRequest
  | some hash_req =>
    let password_hash :=
      match hash_req.options with
      | some opts => bcryptHash hash_req.password opts.work_factor salt
      | none => bcryptHash hash_req.password bcryptDefaultCost salt
    match password_hash with
    | .error _ => .error .HashFailed
    | .ok h => .ok (.hash h)

/-- `argon2id_verify` (src/lib.rs lines 149-163): parse failure is
`InvalidPasswordHash`; a password mismatch is `Ok(false)`; any other
verification error is `VerifyFailed`. -/
def argon2id_verify (options : VerifyRequest) : Except Error Bool :=
  match PasswordHash.new options.hash with
  | .error _ => .error .InvalidPasswordHash
  | .ok password_hash =>
    match verify_password options.password password_hash with
    | .ok () => .ok true
    | .error .Password => .ok false
    | .error _ => .error .VerifyFailed

/-- `argon2id_verify_handler` (src/lib.rs lines 138-147). -/
def argon2id_verify_handler (body : Option VerifyRequest) : Except Error Resp :=
  match body with
  | none => .error .BadRequest
  | some options =>
    match argon2id_verify options with
    | .error e => .error e
    | .ok result => .ok (.verify result)

/-- `bcrypt_verify_handler` (src/lib.rs lines 165-174): every primitive
failure maps uniformly to `VerifyFailed`. -/
def bcrypt_verify_handler (body : Option VerifyRequest) : Except Error Resp :=
  match body with
  | none => .error .BadRequest
  | some options =>
    match bcryptVerify options.password options.hash with
    | .error _ => .error .VerifyFailed
    | .ok result => .ok (.verify result)

/-! ## The worker runtime's response surface, modelled from the spec -/

/-- The worker runtime's HTTP methods. -/
inductive Method where
  | Get
  | Head
  | Post
  | Put
  | Delete
  | Options
  | Connect
  | Trace
  | Patch
deriving DecidableEq

/-- A response body: either the JSON serialization of a success record or
the static plain-text message of an error response. -/
inductive RespBody where
  | json (r : Resp)
  | text (msg : String)
deriving DecidableEq

/-- A worker `Response`: status code, header list, body. -/
structure WResponse where
  status : Nat
  headers : List (String × String)
  body : RespBody
deriving DecidableEq

/-- Modelled from the spec: `Headers::new()` — a fresh empty header map. -/
def Headers.new : List (String × String) := []

/-- Modelled from the spec: `Headers::set` — sets a header, replacing any
existing value for the same name. -/
def Headers.set (hs : List (String × String)) (k v : String) :
    List (String × String) :=
  (k, v) :: hs.filter (fun kv => kv.1 ≠ k)

/-- Modelled from the spec: `Response::ok(body)` — a 200 response carrying
the serialized body, with no headers until `with_headers` attaches some. -/
def Response.ok (b : Resp) : WResponse := ⟨200, Headers.new, .json b⟩

/-- `Response::with_headers`: replaces the response's headers. -/
def WResponse.with_headers (r : WResponse) (hs : List (String × String)) :
    WResponse :=
  ⟨r.status, hs, r.body⟩

/-- Modelled from the spec: `Response::error(msg, status)` — a response with
the given status, the static plain-text message as body, and a fresh empty
header map. -/
def Response.mkError (msg : String) (code : Nat) : WResponse :=
  ⟨code, Headers.new, .text msg⟩

/-- `Error::to_response` (src/lib.rs lines 188-198): the fixed message and
status per kind. -/
def Error.to_response : Error → WResponse
  | .InvalidRoute => Response.mkError ("Not found.") 404
  | .BadRequest => Response.mkError ("Bad request.") 400
  | .InternalServerError => Response.mkError ("Internal server error.") 500
  | .InvalidHashOptions => Response.mkError ("Invalid option for specified hash algorithm.") 400
  | .HashFailed => Response.mkError ("Hash failed.") 500
  | .InvalidPasswordHash => Response.mkError ("Invalid hash") 400
  | .VerifyFailed => Response.mkError ("Verification failed.") 500

/-! ## The router (src/lib.rs lines 12-31) -/

/-- The outcomes of decoding one raw request body as each of the three
request types (`req.json::<T>()` for the `T` each handler expects);
`none` is a decode failure. -/
structure RawBody where
  asArgon2Hash : Option (HashRequest Argon2HashOptions)
  asBcryptHash : Option (HashRequest BcryptHashOptions)
  asVerify : Option VerifyRequest
deriving DecidableEq

/-- The dispatch of `main` (src/lib.rs lines 14-22): the four recognized
(method, path) pairs go to their handlers; everything else is
`Err(InvalidRoute)` without invoking any handler. -/
def mainResult (m : Method) (path : String) (body : RawBody) (salt : Nat) :
    Except Error Resp :=
  if m = .Post ∧ path = "/argon2/hash" then
    argon2id_hash_handler body.asArgon2Hash salt
  else if m = .Post ∧ path = "/argon2/verify" then
    argon2id_verify_handler body.asVerify
  else if m = .Post ∧ path = "/bcrypt/hash" then
    bcrypt_hash_handler body.asBcryptHash salt
  else if m = .Post ∧ path = "/bcrypt/verify" then
    bcrypt_verify_handler body.asVerify
  else
    .error .InvalidRoute

/-- The response shaping of `main` (src/lib.rs lines 24-30): a content-type
header map is built, but attached only on the `Ok` branch; the error branch
returns `Error::to_response` unchanged. -/
def mainResponse (m : Method) (path : String) (body : RawBody) (salt : Nat) :
    WResponse :=
  let res_headers := Headers.set Headers.new ("Content-Type") ("application/json")
  match mainResult m path body salt with
  | .ok b => (Response.ok b).with_headers res_headers
  | .error e => e.to_response

/-- The salt embedded in an encoded digest string (both formats embed it). -/
def HashStr.saltOf : HashStr → Nat
  | .phc _ _ _ _ _ salt _ => salt
  | .mcf _ _ salt _ => salt

end Cryptoflare

deriving instance DecidableEq for Except

namespace Cryptoflare

/-! ## Helper lemmas -/

/-- A successful Argon2 hash is `hash_password` at some validated parameters. -/
theorem argon2id_hash_ok_shape (p : String) (o : Option Argon2HashOptions)
    (salt : Nat) (h : HashStr) (hh : argon2id_hash p o salt = .ok h) :
    ∃ params, h = hash_password params p salt := by
  unfold argon2id_hash at hh
  rcases o with _ | opts
  · simp at hh
    exact ⟨argon2DefaultParams, hh.symm⟩
  · simp only [Params.new] at hh
    split at hh
    · simp at hh
    · simp only [Except.ok.injEq] at hh
      exact ⟨_, hh.symm⟩

/-- Verifying the very password that was hashed succeeds with `true`. -/
theorem argon2id_verify_hash_password (p : String) (params : Argon2Params)
    (salt : Nat) :
    argon2id_verify ⟨p, hash_password params p salt⟩ = .ok true := by
  simp [argon2id_verify, hash_password, PasswordHash.new, verify_password]

/-- A successful bcrypt hash handler call used some in-range cost. -/
theorem bcrypt_handler_ok_shape (p : String) (bopts : Option BcryptHashOptions)
    (salt : Nat) (g : HashStr)
    (hB : bcrypt_hash_handler (some ⟨p, bopts⟩) salt = .ok (.hash g)) :
    ∃ cost, bcryptCostInRange cost ∧ g = .mcf ("2b") cost salt (bcryptKdf p cost salt) := by
  unfold bcrypt_hash_handler at hB
  rcases bopts with _ | opts <;>
    · simp only [bcryptHash] at hB
      split at hB
      · simp at hB
      · rename_i hx heq
        simp only [Except.ok.injEq, Resp.hash.injEq] at hB
        split at heq
        · rename_i hrange
          simp only [Except.ok.injEq] at heq
          exact ⟨_, hrange, by rw [← hB, ← heq]⟩
        · simp at heq

/-- The bcrypt primitive verifies its own in-range digest with `true`. -/
theorem bcryptVerify_own (p : String) (cost salt : Nat)
    (hr : bcryptCostInRange cost) :
    bcryptVerify p (.mcf ("2b") cost salt (bcryptKdf p cost salt)) = .ok true := by
  simp [bcryptVerify, hr]

/-- The salt is recoverable from a successful Argon2 digest. -/
theorem argon2id_hash_salt (p : String) (o : Option Argon2HashOptions)
    (salt : Nat) (h : HashStr) (hh : argon2id_hash p o salt = .ok h) :
    h.saltOf = salt := by
  obtain ⟨params, hp⟩ := argon2id_hash_ok_shape p o salt h hh
  subst hp
  rfl

/-- The salt is recoverable from a successful bcrypt digest. -/
theorem bcrypt_handler_salt (p : String) (bopts : Option BcryptHashOptions)
    (salt : Nat) (g : HashStr)
    (hB : bcrypt_hash_handler (some ⟨p, bopts⟩) salt = .ok (.hash g)) :
    g.saltOf = salt := by
  obtain ⟨cost, _, hg⟩ := bcrypt_handler_ok_shape p bopts salt g hB
  subst hg
  rfl

/-- Error responses carry the fresh empty header map. -/
theorem to_response_headers (e : Error) :
    (Error.to_response e).headers = Headers.new := by
  cases e <;> rfl

/-- Unknown routes map to `InvalidRoute` before any handler runs. -/
theorem mainResult_unknown (m : Method) (path : String) (body : RawBody)
    (salt : Nat)
    (hroute : ¬(m = .Post ∧ (path = "/argon2/hash" ∨ path = "/argon2/verify" ∨
      path = "/bcrypt/hash" ∨ path = "/bcrypt/verify"))) :
    mainResult m path body salt = .error .InvalidRoute := by
  have h1 : ¬(m = .Post ∧ path = "/argon2/hash") :=
    fun hc => hroute ⟨hc.1, .inl hc.2⟩
  have h2 : ¬(m = .Post ∧ path = "/argon2/verify") :=
    fun hc => hroute ⟨hc.1, .inr (.inl hc.2)⟩
  have h3 : ¬(m = .Post ∧ path = "/bcrypt/hash") :=
    fun hc => hroute ⟨hc.1, .inr (.inr (.inl hc.2))⟩
  have h4 : ¬(m = .Post ∧ path = "/bcrypt/verify") :=
    fun hc => hroute ⟨hc.1, .inr (.inr (.inr hc.2))⟩
  simp [mainResult, h1, h2, h3, h4]

/-- The only error `argon2id_hash` itself produces is `InvalidHashOptions`. -/
theorem argon2id_hash_errors (p : String) (o : Option Argon2HashOptions)
    (s : Nat) (e : Error) (hh : argon2id_hash p o s = .error e) :
    e = .InvalidHashOptions := by
  rcases o with _ | opts
  · simp [argon2id_hash] at hh
  · simp only [argon2id_hash, Params.new] at hh
    split at hh
    · rename_i e2 heq
      simp only [Except.error.injEq] at hh
      subst hh
      split at heq
      · simp at heq
      · simp only [Except.error.injEq] at heq
        exact heq.symm
    · simp at hh

/-- `argon2id_hash_handler` fails only with `BadRequest` or
`InvalidHashOptions`. -/
theorem argon2id_hash_handler_errors (b : Option (HashRequest Argon2HashOptions))
    (s : Nat) (e : Error) (he : argon2id_hash_handler b s = .error e) :
    e = .BadRequest ∨ e = .InvalidHashOptions := by
  rcases b with _ | r
  · simp only [argon2id_hash_handler, Except.error.injEq] at he
    exact .inl he.symm
  · simp only [argon2id_hash_handler] at he
    split at he
    · rename_i e2 heq
      simp only [Except.error.injEq] at he
      subst he
      exact .inr (argon2id_hash_errors r.password r.options s e2 heq)
    · simp at he

/-- `bcrypt_hash_handler` fails only with `BadRequest` or `HashFailed`. -/
theorem bcrypt_hash_handler_errors (b : Option (HashRequest BcryptHashOptions))
    (s : Nat) (e : Error) (he : bcrypt_hash_handler b s = .error e) :
    e = .BadRequest ∨ e = .HashFailed := by
  rcases b with _ | r
  · simp only [bcrypt_hash_handler, Except.error.injEq] at he
    exact .inl he.symm
  · simp only [bcrypt_hash_handler] at he
    split at he
    · simp only [Except.error.injEq] at he
      exact .inr he.symm
    · simp at he

/-- `argon2id_verify` fails only with `InvalidPasswordHash` or
`VerifyFailed`. -/
theorem argon2id_verify_errors (r : VerifyRequest) (e : Error)
    (hv : argon2id_verify r = .error e) :
    e = .InvalidPasswordHash ∨ e = .VerifyFailed := by
  simp only [argon2id_verify] at hv
  split at hv
  · simp only [Except.error.injEq] at hv
    exact .inl hv.symm
  · split at hv <;> simp_all

/-- `argon2id_verify_handler` fails only with `BadRequest`,
`InvalidPasswordHash` or `VerifyFailed`. -/
theorem argon2id_verify_handler_errors (b : Option VerifyRequest) (e : Error)
    (he : argon2id_verify_handler b = .error e) :
    e = .BadRequest ∨ e = .InvalidPasswordHash ∨ e = .VerifyFailed := by
  rcases b with _ | r
  · simp only [argon2id_verify_handler, Except.error.injEq] at he
    exact .inl he.symm
  · simp only [argon2id_verify_handler] at he
    split at he
    · rename_i e2 heq
      simp only [Except.error.injEq] at he
      subst he
      exact .inr (argon2id_verify_errors r e2 heq)
    · simp at he

/-- `bcrypt_verify_handler` fails only with `BadRequest` or `VerifyFailed`. -/
theorem bcrypt_verify_handler_errors (b : Option VerifyRequest) (e : Error)
    (he : bcrypt_verify_handler b = .error e) :
    e = .BadRequest ∨ e = .VerifyFailed := by
  rcases b with _ | r
  · simp only [bcrypt_verify_handler, Except.error.injEq] at he
    exact .inl he.symm
  · simp only [bcrypt_verify_handler] at he
    split at he
    · simp only [Except.error.injEq] at he
      exact .inr he.symm
    · simp at he

/-! ## Claims -/

/-- C1: for every password and for both algorithms, verifying the password
against the digest produced by hashing it (with any accepted options or
options absent) returns `Ok(true)`. -/
theorem C1_round_trip (p : String) (aopts : Option Argon2HashOptions)
    (bopts : Option BcryptHashOptions) (salt : Nat) (ha gb : HashStr)
    (hA : argon2id_hash p aopts salt = .ok ha)
    (hB : bcrypt_hash_handler (some ⟨p, bopts⟩) salt = .ok (.hash gb)) :
    argon2id_verify ⟨p, ha⟩ = .ok true ∧
    bcrypt_verify_handler (some ⟨p, gb⟩) = .ok (.verify true) := by
  constructor
  · obtain ⟨params, hp⟩ := argon2id_hash_ok_shape p aopts salt ha hA
    subst hp
    exact argon2id_verify_hash_password p params salt
  · obtain ⟨cost, hr, hg⟩ := bcrypt_handler_ok_shape p bopts salt gb hB
    subst hg
    simp [bcrypt_verify_handler, bcryptVerify_own p cost salt hr]

/-- Witness for C1 at password pw, absent options, salt 5. -/
theorem C1_round_trip_witness :
    argon2id_verify ⟨"pw", .phc ("argon2id") 19 19456 2 1 5 10247906586956⟩ = .ok true ∧
    bcrypt_verify_handler (some ⟨"pw", .mcf ("2b") 12 5 6492447714⟩) = .ok (.verify true) :=
  C1_round_trip ("pw") none none 5 _ _ rfl rfl

/-- C2: for every password and well-formed Argon2 hash, a recomputed-digest
mismatch is the successful outcome `Ok(false)`, never an error. -/
theorem C2_mismatch_is_ok_false (p alg : String) (v m t pr salt digest : Nat)
    (halg : alg = "argon2id" ∨ alg = "argon2i" ∨ alg = "argon2d")
    (hne : argon2Kdf p v m t pr salt ≠ digest) :
    argon2id_verify ⟨p, .phc alg v m t pr salt digest⟩ = .ok false := by
  rcases halg with h | h | h <;> subst h <;>
    simp [argon2id_verify, PasswordHash.new, verify_password, hne]

/-- Witness for C2 at password pw and a digest that cannot match. -/
theorem C2_mismatch_is_ok_false_witness :
    argon2id_verify ⟨"pw", .phc ("argon2id") 19 19456 2 1 0 999⟩ = .ok false :=
  C2_mismatch_is_ok_false ("pw") ("argon2id") 19 19456 2 1 0 999 (Or.inl rfl)
    (by decide)

/-- C3: an options tuple rejected by the parameter constructor yields
`InvalidHashOptions` (HTTP 400), not `HashFailed`; absent options use the
algorithm's default parameters. -/
theorem C3_invalid_options (p : String) (opts : Argon2HashOptions) (salt : Nat)
    (hbad : ¬ argon2ParamsValid opts.memory_cost opts.time_cost opts.parallelism) :
    argon2id_hash p (some opts) salt = .error .InvalidHashOptions ∧
    (Error.to_response .InvalidHashOptions).status = 400 ∧
    argon2id_hash p none salt =
      .ok (.phc ("argon2id") 19 19456 2 1 salt (argon2Kdf p 19 19456 2 1 salt)) := by
  refine ⟨?_, rfl, rfl⟩
  simp [argon2id_hash, Params.new, hbad]

/-- Witness for C3 at the all-zero options tuple. -/
theorem C3_invalid_options_witness :
    argon2id_hash ("pw") (some ⟨0, 0, 0⟩) 3 = .error .InvalidHashOptions ∧
    (Error.to_response .InvalidHashOptions).status = 400 ∧
    argon2id_hash ("pw") none 3 =
      .ok (.phc ("argon2id") 19 19456 2 1 3 (argon2Kdf ("pw") 19 19456 2 1 3)) :=
  C3_invalid_options ("pw") ⟨0, 0, 0⟩ 3 (by decide)

/-- C4: a bcrypt work factor outside the primitive's accepted range fails
with `HashFailed` (HTTP 500), not `InvalidHashOptions`. -/
theorem C4_bcrypt_out_of_range (p : String) (wf salt : Nat)
    (hout : ¬ bcryptCostInRange wf) :
    bcrypt_hash_handler (some ⟨p, some ⟨wf⟩⟩) salt = .error .HashFailed ∧
    (Error.to_response .HashFailed).status = 500 ∧
    bcrypt_hash_handler (some ⟨p, some ⟨wf⟩⟩) salt ≠ .error .InvalidHashOptions := by
  have h1 : bcrypt_hash_handler (some ⟨p, some ⟨wf⟩⟩) salt = .error .HashFailed := by
    simp [bcrypt_hash_handler, bcryptHash, hout]
  refine ⟨h1, rfl, ?_⟩
  rw [h1]
  simp

/-- Witness for C4 at work factor 0. -/
theorem C4_bcrypt_out_of_range_witness :
    bcrypt_hash_handler (some ⟨"pw", some ⟨0⟩⟩) 7 = .error .HashFailed ∧
    (Error.to_response .HashFailed).status = 500 ∧
    bcrypt_hash_handler (some ⟨"pw", some ⟨0⟩⟩) 7 ≠ .error .InvalidHashOptions :=
  C4_bcrypt_out_of_range ("pw") 0 7 (by decide)

/-- C5: every bcrypt-verify primitive failure, malformed hash string
included, maps uniformly to `VerifyFailed`. -/
theorem C5_bcrypt_verify_uniform (p : String) (h : HashStr)
    (hfail : bcryptVerify p h = .error ()) :
    bcrypt_verify_handler (some ⟨p, h⟩) = .error .VerifyFailed := by
  simp [bcrypt_verify_handler, hfail]

/-- Witness for C5 at a PHC string, which the bcrypt primitive cannot
parse. -/
theorem C5_bcrypt_verify_uniform_witness :
    bcrypt_verify_handler (some ⟨"pw", .phc ("argon2id") 19 19456 2 1 0 0⟩) =
      .error .VerifyFailed :=
  C5_bcrypt_verify_uniform ("pw") (.phc ("argon2id") 19 19456 2 1 0 0) rfl

/-- C6: a bcrypt-produced digest fed to the Argon2 verify operation fails at
parse time with `InvalidPasswordHash` — neither `true` nor `false`. -/
theorem C6_cross_algorithm (p : String) (bopts : Option BcryptHashOptions)
    (salt : Nat) (g : HashStr)
    (hB : bcrypt_hash_handler (some ⟨p, bopts⟩) salt = .ok (.hash g)) :
    argon2id_verify ⟨p, g⟩ = .error .InvalidPasswordHash := by
  obtain ⟨cost, _, hg⟩ := bcrypt_handler_ok_shape p bopts salt g hB
  subst hg
  rfl

/-- Witness for C6 at the default-cost bcrypt digest of pw. -/
theorem C6_cross_algorithm_witness :
    argon2id_verify ⟨"pw", .mcf ("2b") 12 5 6492447714⟩ =
      .error .InvalidPasswordHash :=
  C6_cross_algorithm ("pw") none 5 _ rfl

/-- C7: with fixed password and options, two hash calls differing only in
the fresh salt produce distinct encoded digests, for both algorithms. -/
theorem C7_salt_freshness (p : String) (aopts : Option Argon2HashOptions)
    (bopts : Option BcryptHashOptions) (s1 s2 : Nat) (hne : s1 ≠ s2)
    (h1 h2 g1 g2 : HashStr)
    (hA1 : argon2id_hash p aopts s1 = .ok h1)
    (hA2 : argon2id_hash p aopts s2 = .ok h2)
    (hB1 : bcrypt_hash_handler (some ⟨p, bopts⟩) s1 = .ok (.hash g1))
    (hB2 : bcrypt_hash_handler (some ⟨p, bopts⟩) s2 = .ok (.hash g2)) :
    h1 ≠ h2 ∧ g1 ≠ g2 := by
  constructor
  · intro hc
    apply hne
    rw [← argon2id_hash_salt p aopts s1 h1 hA1,
      ← argon2id_hash_salt p aopts s2 h2 hA2, hc]
  · intro hc
    apply hne
    rw [← bcrypt_handler_salt p bopts s1 g1 hB1,
      ← bcrypt_handler_salt p bopts s2 g2 hB2, hc]

/-- Witness for C7 at salts 0 and 1. -/
theorem C7_salt_freshness_witness :
    (HashStr.phc ("argon2id") 19 19456 2 1 0 10247906501151 ≠
      HashStr.phc ("argon2id") 19 19456 2 1 1 10247906518312) ∧
    (HashStr.mcf ("2b") 12 0 6492117469 ≠ HashStr.mcf ("2b") 12 1 6492183518) :=
  C7_salt_freshness ("pw") none none 0 1 (by decide) _ _ _ _ rfl rfl rfl rfl

/-- C8: any (method, path) pair outside the four POST endpoints yields
`InvalidRoute` with HTTP 404, and the outcome is independent of the request
body and the drawn salt — no hash or verify operation is invoked. -/
theorem C8_unknown_route (m : Method) (path : String) (body : RawBody)
    (salt : Nat)
    (hroute : ¬(m = .Post ∧ (path = "/argon2/hash" ∨ path = "/argon2/verify" ∨
      path = "/bcrypt/hash" ∨ path = "/bcrypt/verify"))) :
    mainResult m path body salt = .error .InvalidRoute ∧
    (mainResponse m path body salt).status = 404 ∧
    ∀ body2 salt2, mainResult m path body2 salt2 = .error .InvalidRoute := by
  refine ⟨mainResult_unknown m path body salt hroute, ?_,
    fun body2 salt2 => mainResult_unknown m path body2 salt2 hroute⟩
  simp [mainResponse, mainResult_unknown m path body salt hroute,
    Error.to_response, Response.mkError]

/-- Witness for C8 at GET /argon2/hash. -/
theorem C8_unknown_route_witness :
    mainResult .Get ("/argon2/hash") ⟨none, none, none⟩ 0 = .error .InvalidRoute ∧
    (mainResponse .Get ("/argon2/hash") ⟨none, none, none⟩ 0).status = 404 :=
  ⟨(C8_unknown_route .Get ("/argon2/hash") ⟨none, none, none⟩ 0 (by decide)).1,
    (C8_unknown_route .Get ("/argon2/hash") ⟨none, none, none⟩ 0 (by decide)).2.1⟩

/-- C9 counterexample: the 404 response for GET /argon2/hash carries no
content-type header at all — its header list is empty, so not every
response carries a content-type header identifying JSON. -/
theorem C9_counterexample :
    (("Content-Type", "application/json") ∉
      (mainResponse .Get ("/argon2/hash") ⟨none, none, none⟩ 0).headers) ∧
    (mainResponse .Get ("/argon2/hash") ⟨none, none, none⟩ 0).headers = [] := by
  have h0 : (mainResponse .Get ("/argon2/hash") ⟨none, none, none⟩ 0).headers = [] := rfl
  exact ⟨by rw [h0]; simp, h0⟩

/-- C9 amended: success responses carry the content-type header identifying
JSON; error responses are built by the runtime's error constructor with a
fresh empty header map and carry no headers at all. -/
theorem C9_amended_headers (m : Method) (path : String) (body : RawBody)
    (salt : Nat) :
    (mainResponse m path body salt).headers =
      match mainResult m path body salt with
      | .ok _ => [("Content-Type", "application/json")]
      | .error _ => [] := by
  unfold mainResponse
  cases hr : mainResult m path body salt
  case error e => simp [hr, to_response_headers, Headers.new]
  case ok b => simp [hr, Response.ok, WResponse.with_headers, Headers.set, Headers.new]

/-- C10: every failure is one of the seven kinds, partitioned by operation:
hash handlers fail only with `BadRequest`, `InvalidHashOptions` (Argon2
only), `HashFailed` or `InternalServerError`; verify handlers only with
`BadRequest`, `InvalidPasswordHash` (Argon2 only), `VerifyFailed` or
`InternalServerError`. -/
theorem C10_error_partition (a2b : Option (HashRequest Argon2HashOptions))
    (bcb : Option (HashRequest BcryptHashOptions))
    (v1 v2 : Option VerifyRequest) (s1 s2 : Nat) :
    (∀ e, argon2id_hash_handler a2b s1 = .error e →
      e = .BadRequest ∨ e = .InvalidHashOptions ∨ e = .HashFailed ∨
        e = .InternalServerError) ∧
    (∀ e, bcrypt_hash_handler bcb s2 = .error e →
      e = .BadRequest ∨ e = .HashFailed ∨ e = .InternalServerError) ∧
    (∀ e, argon2id_verify_handler v1 = .error e →
      e = .BadRequest ∨ e = .InvalidPasswordHash ∨ e = .VerifyFailed ∨
        e = .InternalServerError) ∧
    (∀ e, bcrypt_verify_handler v2 = .error e →
      e = .BadRequest ∨ e = .VerifyFailed ∨ e = .InternalServerError) := by
  refine ⟨fun e he => ?_, fun e he => ?_, fun e he => ?_, fun e he => ?_⟩
  · rcases argon2id_hash_handler_errors a2b s1 e he with h | h
    · exact .inl h
    · exact .inr (.inl h)
  · rcases bcrypt_hash_handler_errors bcb s2 e he with h | h
    · exact .inl h
    · exact .inr (.inl h)
  · rcases argon2id_verify_handler_errors v1 e he with h | h | h
    · exact .inl h
    · exact .inr (.inl h)
    · exact .inr (.inr (.inl h))
  · rcases bcrypt_verify_handler_errors v2 e he with h | h
    · exact .inl h
    · exact .inr (.inl h)

/-- Witness for C10 at the undecodable-body failure of the Argon2 hash
handler. -/
theorem C10_error_partition_witness :
    Error.BadRequest = .BadRequest ∨ Error.BadRequest = .InvalidHashOptions ∨
      Error.BadRequest = .HashFailed ∨ Error.BadRequest = .InternalServerError :=
  (C10_error_partition none none none none 0 0).1 Error.BadRequest rfl

end Cryptoflare
